import Mathlib

/-!
Verification development for the janus relay-network node.

Client side (src/janus/client/janus-ipfs/src/lib.rs): the call-envelope
builders `register_call` and `multiaddr_call`, and the select loop of
`run_ipfs_multiaddr_service`, embedded as a step function over an explicit
event trace.

Server side (src/janus/server/src/peer_service/peer_service.rs): the
construction of the peer service and one scheduling tick of
`peer_service_executor`, embedded as a pure function on an explicit
swarm/channel state.

The faas_api crate (address paths, signatures, envelopes) and the janus
client/behaviour crates are part of the repository but absent from src/;
their operations are modelled from the specification, as marked on each
definition.
-/

namespace Nox

/-- Modelled from the spec: the identity keypair of a node (faas_api and
libp2p ed25519 are not under src/). A keypair is represented by its public
identity; the peer id of a node is derivable from it. -/
structure Keypair where
  pk : Nat
deriving DecidableEq

/-- Modelled from the spec: signing the byte-serialization of a path with a
node identity key. Signatures are symbolic: a signature is the pair of the
signer public identity and the exact signed bytes, so a signature verifies
against a message and a public key exactly when both components match. -/
def sign (kp : Keypair) (bytes : List Nat) : Nat × List Nat :=
  (kp.pk, bytes)

/-- Modelled from the spec: the typed segments of an address path
(faas_api Protocol is not under src/). -/
inductive Protocol where
  | Peer (id : Nat)
  | Client (id : Nat)
  | Service (name : String)
  | Signature (sig : Nat × List Nat)
deriving DecidableEq

/-- Modelled from the spec: an address path is an ordered sequence of
typed segments. -/
abbrev Address := List Protocol

/-- Modelled from the spec: unambiguous, self-delimiting byte framing of a
single segment (a tag followed by length-prefixed payload where needed). -/
def serializeSeg : Protocol → List Nat
  | Protocol.Peer id => [0, id]
  | Protocol.Client id => [1, id]
  | Protocol.Service name => 2 :: name.length :: (name.toList.map Char.toNat)
  | Protocol.Signature sig => 3 :: sig.1 :: sig.2.length :: sig.2

/-- Modelled from the spec: the byte-serialization of a whole path, which is
what gets signed (source signs reply_to.path().as_bytes()). -/
def Address.path (a : Address) : List Nat :=
  (a.map serializeSeg).flatten

/-- Modelled from the spec: the relay composition built by the relay! macro,
the path [Peer relay, Peer client] meaning deliver to the client via the
relay. -/
def relay_path (relay client : Nat) : Address :=
  [Protocol.Peer relay, Protocol.Peer client]

/-- Modelled from the spec: append returns a new path with the extra
segment at the end; paths are immutable. -/
def Address.append (a : Address) (p : Protocol) : Address :=
  a ++ [p]

/-- Modelled from the spec: the identity of the claimed signer of a path,
the client peer of the relay composition, that is the final Peer segment of
the body (for the path [Peer R, Peer A] the signer is A, matching the spec
sentence that a reply carries a valid signature by the key of A). -/
def lastPeerId (a : Address) : Option Nat :=
  a.foldl (fun acc seg => match seg with
    | Protocol.Peer id => some id
    | _ => acc) none

/-- Modelled from the spec: verification locates the terminal Signature
segment and checks it against the byte-serialization of the preceding
segments under the claimed signer public key; any malformed, missing or
out-of-position signature is rejected. -/
def verify (a : Address) : Bool :=
  match a.getLast? with
  | some (Protocol.Signature sig) =>
      decide (lastPeerId a.dropLast = some sig.1 ∧ sig.2 = Address.path a.dropLast)
  | _ => false

/-- Modelled from the spec: the schema-less JSON-compatible argument
payload carried by an envelope. -/
inductive Json where
  | null
  | str (s : String)
  | obj (fields : List (String × Json))

/-- Modelled from the spec: field lookup on an argument payload followed by
as_str, as the source does for the msg_id argument. -/
def jsonGetStr (j : Json) (key : String) : Option String :=
  match j with
  | Json.obj fields =>
      match fields.lookup key with
      | some (Json.str s) => some s
      | _ => none
  | _ => none

/-- Modelled from the spec: how serde_json serializes an optional string
into the payload (None becomes null). -/
def optStrJson : Option String → Json
  | some s => Json.str s
  | none => Json.null

/-- Modelled from the spec: one component of a multiaddr. -/
inductive MSeg where
  | ip4 (a : Nat)
  | tcp (p : Nat)
deriving DecidableEq

/-- Modelled from the spec: a multiaddr as a sequence of components. -/
abbrev Multiaddr := List MSeg

def MSeg.render : MSeg → String
  | MSeg.ip4 a => "/ip4/" ++ toString a
  | MSeg.tcp p => "/tcp/" ++ toString p

/-- Rendering of a multiaddr to a string, as to_string does in the source
when the multiaddr is placed into an argument payload. -/
def Multiaddr.render (m : Multiaddr) : String :=
  String.join (m.map MSeg.render)

/-- The advertised service id of the node (source constant IPFS_SERVICE_ID). -/
def IPFS_SERVICE_ID : String := "IPFS.multiaddr"

/-- The advertised service segment (source static IPFS_SERVICE). -/
def IPFS_SERVICE : Protocol := Protocol.Service IPFS_SERVICE_ID

/-- Embedding of message_id: the source draws a fresh random v4 uuid from
the ambient generator and renders it; the random draw is made an explicit
parameter. -/
def message_id (randomDraw : Nat) : String :=
  toString randomDraw

/-- The call envelope of faas_api, with the fields the source constructs. -/
structure FunctionCall where
  uuid : String
  target : Option Address
  reply_to : Option Address
  arguments : Json
  name : Option String

/-- Embedding of register_call (lib.rs lines 54 to 71); the uuid random
draw is an explicit parameter. -/
def register_call (client relay : Nat) (service_id : String) (kp : Keypair)
    (uuidDraw : Nat) : FunctionCall :=
  let reply_to := relay_path relay client
  let signature := Protocol.Signature (sign kp (Address.path reply_to))
  let reply_to := some (Address.append reply_to signature)
  let target := some [Protocol.Service "provide"]
  let arguments := Json.obj [("service_id", Json.str service_id)]
  let uuid := message_id uuidDraw
  let name := some ("Delegate provide service " ++ service_id)
  { uuid := uuid, target := target, reply_to := reply_to,
    arguments := arguments, name := name }

/-- Embedding of multiaddr_call (lib.rs lines 73 to 96); the uuid random
draw is an explicit parameter. -/
def multiaddr_call (bootstrap_id client : Nat) (reply_to : Address)
    (msg_id : Option String) (multiaddr : Multiaddr) (kp : Keypair)
    (uuidDraw : Nat) : FunctionCall :=
  let target := some reply_to
  let arguments := Json.obj
    [("multiaddr", Json.str (Multiaddr.render multiaddr)),
     ("msg_id", optStrJson msg_id)]
  let reply_to2 := relay_path bootstrap_id client
  let signature := Protocol.Signature (sign kp (Address.path reply_to2))
  let reply_to3 := some (Address.append reply_to2 signature)
  let uuid := message_id uuidDraw
  let name := some "Reply on IPFS.multiaddr"
  { uuid := uuid, target := target, reply_to := reply_to3,
    arguments := arguments, name := name }

/-- Modelled from the spec: the events the client transport delivers to the
orchestrator (janus_client is a repo crate absent from src/). -/
inductive ClientEvent where
  | FunctionCallEv (call : FunctionCall) (sender : Nat)
  | NewConnection (peer_id : Nat) (multiaddr : Multiaddr)

/-- Modelled from the spec: the command handed to the client transport. -/
inductive ClientCommand where
  | Call (node : Nat) (call : FunctionCall)

/-- Tag recording which branch of the loop produced a send (the source
sends registration calls from the timer branch and replies from the
inbound-call branch). -/
inductive SendTag where
  | registration
  | reply
deriving DecidableEq

/-- One readiness outcome of the select: an inbound transport event (none
means the stream closed), a periodic timer tick, or the one-shot stop
signal. -/
inductive LoopEvent where
  | incoming (ev : Option ClientEvent)
  | timerTick
  | stopSignal

/-- The fixed inputs of run_ipfs_multiaddr_service: the bootstrap and ipfs
multiaddrs, plus the connected client identity and keypair. -/
structure OrchCfg where
  bootstrap : Multiaddr
  ipfs : Multiaddr
  client_peer : Nat
  kp : Keypair

/-- The mutable loop state of run_ipfs_multiaddr_service: the recorded
relay id, the remaining periodic ticks of the take-10 interval, and the
position of the ambient uuid generator. -/
structure OrchState where
  bootstrap_id : Option Nat
  ticksLeft : Nat
  uuidSeed : Nat

/-- The state at loop entry: no relay recorded, ten periodic ticks ahead. -/
def initOrch : OrchState :=
  { bootstrap_id := none, ticksLeft := 10, uuidSeed := 0 }

/-- Result of handling one select arm: continue the loop (with the sends
made and whether the periodic timer fired), leave the loop (with how many
times client.stop was called on the way out), or panic. -/
inductive StepResult where
  | cont (s : OrchState) (sent : List (SendTag × ClientCommand)) (fired : Bool)
  | stopLoop (sent : List (SendTag × ClientCommand)) (stopCalls : Nat)
  | panicked

/-- Embedding of one iteration of the select loop of
run_ipfs_multiaddr_service (lib.rs lines 119 to 173). The panicked result
models the unwrap of bootstrap_id on line 137, which the source evaluates
before its own none-guard. -/
def step (cfg : OrchCfg) (s : OrchState) : LoopEvent → StepResult
  | LoopEvent.incoming (some (ClientEvent.FunctionCallEv call _sender)) =>
      match call.target, call.reply_to with
      | some target, some reply_to =>
          if IPFS_SERVICE ∈ target then
            match s.bootstrap_id with
            | none => StepResult.panicked
            | some bid =>
                let msg_id := jsonGetStr call.arguments "msg_id"
                let c := multiaddr_call bid cfg.client_peer reply_to msg_id
                  cfg.ipfs cfg.kp s.uuidSeed
                StepResult.cont { s with uuidSeed := s.uuidSeed + 1 }
                  [(SendTag.reply, ClientCommand.Call bid c)] false
          else StepResult.cont s [] false
      | _, _ => StepResult.cont s [] false
  | LoopEvent.incoming (some (ClientEvent.NewConnection peer_id multiaddr)) =>
      if multiaddr = cfg.bootstrap then
        StepResult.cont { s with bootstrap_id := some peer_id } [] false
      else StepResult.cont s [] false
  | LoopEvent.incoming none => StepResult.stopLoop [] 0
  | LoopEvent.timerTick =>
      match s.ticksLeft, s.bootstrap_id with
      | 0, _ => StepResult.cont s [] false
      | Nat.succ n, some bid =>
          let c := register_call cfg.client_peer bid IPFS_SERVICE_ID cfg.kp
            s.uuidSeed
          StepResult.cont { s with ticksLeft := n, uuidSeed := s.uuidSeed + 1 }
            [(SendTag.registration, ClientCommand.Call bid c)] true
      | Nat.succ n, none =>
          StepResult.cont { s with ticksLeft := n } [] true
  | LoopEvent.stopSignal => StepResult.stopLoop [] 1

/-- How a run of the loop ended: still running when the trace was
exhausted, broke out and then awaited client_task (the source awaits it
after the loop on every exit path), or panicked. -/
inductive OutKind where
  | running
  | stoppedAwaited
  | panickedRun
deriving DecidableEq

/-- Accumulated observation of a run of the loop. -/
structure RunOut where
  sent : List (SendTag × ClientCommand)
  stopCalls : Nat
  fires : Nat
  outcome : OutKind

/-- Embedding of the whole select loop over an explicit trace of readiness
outcomes, folding step over the trace. -/
def runFrom (cfg : OrchCfg) (s : OrchState) : List LoopEvent → RunOut
  | [] => { sent := [], stopCalls := 0, fires := 0, outcome := OutKind.running }
  | e :: rest =>
      match step cfg s e with
      | StepResult.cont s2 sent fired =>
          let r := runFrom cfg s2 rest
          { sent := sent ++ r.sent, stopCalls := r.stopCalls,
            fires := (if fired then 1 else 0) + r.fires, outcome := r.outcome }
      | StepResult.stopLoop sent k =>
          { sent := sent, stopCalls := k, fires := 0,
            outcome := OutKind.stoppedAwaited }
      | StepResult.panicked =>
          { sent := [], stopCalls := 0, fires := 0,
            outcome := OutKind.panickedRun }

/-- Number of registration calls a run handed to the transport. -/
def regCount (r : RunOut) : Nat :=
  r.sent.countP (fun p => decide (p.1 = SendTag.registration))

/-- The guard of the inbound-call arm: a function call with target and
reply_to present whose target contains the advertised service. -/
def isMatchingCall : ClientEvent → Bool
  | ClientEvent.FunctionCallEv call _ =>
      (match call.target with
       | some t => decide (IPFS_SERVICE ∈ t)
       | none => false) && call.reply_to.isSome
  | _ => false

/-- The guard of the new-connection arm: the connection multiaddr equals
the configured bootstrap multiaddr. -/
def isMatchingConn (cfg : OrchCfg) : ClientEvent → Bool
  | ClientEvent.NewConnection _ multiaddr => decide (multiaddr = cfg.bootstrap)
  | _ => false

/-- A trace in which no new-connection event matching the bootstrap
multiaddr is ever delivered. -/
def noConn (cfg : OrchCfg) (trace : List LoopEvent) : Bool :=
  trace.all (fun e => match e with
    | LoopEvent.incoming (some ev) => !(isMatchingConn cfg ev)
    | _ => true)

def StepResult.sentOf : StepResult → List (SendTag × ClientCommand)
  | StepResult.cont _ sent _ => sent
  | StepResult.stopLoop sent _ => sent
  | StepResult.panicked => []

def StepResult.isCont : StepResult → Bool
  | StepResult.cont _ _ _ => true
  | _ => false

/-- The inbound commands of the notification bridge
(peer_service/notifications, a repo module absent from src/; constructors
as named by the executor match). -/
inductive InPeerNotification where
  | Relay (src_id dst_id : Nat) (data : List Nat)
  | NetworkState (dst_id : Nat) (state : Nat)
deriving DecidableEq

/-- A recorded invocation of a behaviour operation by the executor. -/
inductive AppliedOp where
  | relayMsg (src_id dst_id : Nat) (data : List Nat)
  | netState (dst_id : Nat) (state : Nat)
deriving DecidableEq

/-- The behaviour operation a notification is dispatched to. -/
def notifToOp : InPeerNotification → AppliedOp
  | InPeerNotification.Relay s d data => AppliedOp.relayMsg s d data
  | InPeerNotification.NetworkState d st => AppliedOp.netState d st

/-- State of the swarm owned by the peer service: the local identity, the
bound listen addresses, the record of behaviour operations invoked on it,
the count of pending internal swarm events, and the queue of outbound node
events. -/
structure ServerSwarm where
  local_peer : Nat
  listeners : List Multiaddr
  applied : List AppliedOp
  swarmEvents : Nat
  out_queue : List Nat
deriving DecidableEq

/-- Modelled from the spec: relay_message of the behaviour (behaviour.rs is
a repo module absent from src/) forwards the data to dst as coming from
src; at this layer of the embedding the invocation is recorded on the
swarm. -/
def relay_message (sw : ServerSwarm) (src_id dst_id : Nat) (data : List Nat) :
    ServerSwarm :=
  { sw with applied := sw.applied ++ [AppliedOp.relayMsg src_id dst_id data] }

/-- Modelled from the spec: send_network_state of the behaviour pushes a
state update to dst; the invocation is recorded on the swarm. -/
def send_network_state (sw : ServerSwarm) (dst_id : Nat) (state : Nat) :
    ServerSwarm :=
  { sw with applied := sw.applied ++ [AppliedOp.netState dst_id state] }

/-- Modelled from the spec: pop_out_node_event returns at most one pending
outbound event, in FIFO order, without blocking. -/
def pop_out_node_event (sw : ServerSwarm) : Option Nat × ServerSwarm :=
  match sw.out_queue with
  | [] => (none, sw)
  | e :: rest => (some e, { sw with out_queue := rest })

/-- Dispatch of one inbound notification, mirroring the inner match of the
drain loop of peer_service_executor. -/
def applyNotification (sw : ServerSwarm) : InPeerNotification → ServerSwarm
  | InPeerNotification.Relay src_id dst_id data =>
      relay_message sw src_id dst_id data
  | InPeerNotification.NetworkState dst_id state =>
      send_network_state sw dst_id state

/-- The first loop of peer_service_executor (lines 101 to 129): poll the
inbound channel until it is not ready (or closed, or errored; all three
break), applying each ready notification in receipt order. -/
def drainLoop (sw : ServerSwarm) : List InPeerNotification → ServerSwarm
  | [] => sw
  | n :: rest => drainLoop (applyNotification sw n) rest

/-- The second loop of peer_service_executor (lines 131 to 140): drive the
swarm until it reports not ready; pending internal events are consumed. -/
def swarmPollLoop (sw : ServerSwarm) : ServerSwarm :=
  { sw with swarmEvents := 0 }

/-- The inbound bridge endpoint as the executor sees it on one tick: the
notifications currently ready, and whether the producer side is gone
(poll then yields Ready None). -/
structure InChan where
  queue : List InPeerNotification
  closed : Bool

/-- Outcome of one tick of the executor: the poll function returns
NotReady (forwarding the listed events on the way), so the loop stays
alive; or the unwrap on try_send panicked because the outbound consumer is
gone. -/
inductive TickOutcome where
  | notReadyT (sw : ServerSwarm) (forwarded : List Nat)
  | panickedT (sw : ServerSwarm)
deriving DecidableEq

/-- Embedding of one invocation of the poll closure of
peer_service_executor (lines 100 to 148): drain the inbound channel, drive
the swarm, then pop at most one outbound event and try_send it (unwrap:
panic when the outbound consumer is gone), finally return NotReady. -/
def peer_service_tick (sw : ServerSwarm) (inCh : InChan) (outOpen : Bool) :
    TickOutcome :=
  let sw1 := drainLoop sw inCh.queue
  let sw2 := swarmPollLoop sw1
  match pop_out_node_event sw2 with
  | (none, sw3) => TickOutcome.notReadyT sw3 []
  | (some e, sw3) =>
      if outOpen then TickOutcome.notReadyT sw3 [e]
      else TickOutcome.panickedT sw3

def TickOutcome.appliedOf : TickOutcome → List AppliedOp
  | TickOutcome.notReadyT sw _ => sw.applied
  | TickOutcome.panickedT sw => sw.applied

def TickOutcome.swarmEventsOf : TickOutcome → Nat
  | TickOutcome.notReadyT sw _ => sw.swarmEvents
  | TickOutcome.panickedT sw => sw.swarmEvents

def TickOutcome.forwardedOf : TickOutcome → List Nat
  | TickOutcome.notReadyT _ f => f
  | TickOutcome.panickedT _ => []

def TickOutcome.outQueueOf : TickOutcome → List Nat
  | TickOutcome.notReadyT sw _ => sw.out_queue
  | TickOutcome.panickedT sw => sw.out_queue

def TickOutcome.isNotReadyT : TickOutcome → Bool
  | TickOutcome.notReadyT _ _ => true
  | _ => false

def TickOutcome.isPanickedT : TickOutcome → Bool
  | TickOutcome.panickedT _ => true
  | _ => false

/-- Shared handle to a reference-counted, mutex-protected cell, as the
source Arc Mutex wrapper; clone copies the handle and the copy aliases the
same cell. -/
structure ArcMutex (α : Type) where
  cellId : Nat
  value : α

def ArcMutex.clone {α : Type} (h : ArcMutex α) : ArcMutex α := h

/-- The peer service record: it owns the swarm (peer_service.rs line 35). -/
structure PeerService where
  swarm : ServerSwarm

/-- The configuration of the peer service (config.rs is a repo module
absent from src/; the fields the source reads). -/
structure PeerServiceConfig where
  listen_ip : Nat
  listen_port : Nat
  socket_timeout : Nat

/-- The environment the construction runs in: whether binding a given
listen address succeeds. -/
structure BindEnv where
  bindOk : Multiaddr → Bool

def Multiaddr.ofIp (a : Nat) : Multiaddr := [MSeg.ip4 a]

def Multiaddr.push (m : Multiaddr) (s : MSeg) : Multiaddr := m ++ [s]

/-- Modelled interface of libp2p Swarm listen_on: on success the address is
added to the swarm listeners, otherwise a transport error is returned. -/
def listen_on (sw : ServerSwarm) (addr : Multiaddr) (env : BindEnv) :
    Except Unit ServerSwarm :=
  if env.bindOk addr then Except.ok { sw with listeners := sw.listeners ++ [addr] }
  else Except.error ()

/-- Modelled interface of libp2p keypair generation: the entropy draw is an
explicit parameter. -/
def generate_ed25519 (entropy : Nat) : Keypair := { pk := entropy }

def peerIdFrom (kp : Keypair) : Nat := kp.pk

/-- Embedding of PeerService::new (peer_service.rs lines 47 to 64): build
the swarm, push Tcp(listen_port) onto the listen ip multiaddr, listen_on
with unwrap (none models that panic), and wrap the service in Arc Mutex.
The return type carries no error value, matching the source signature. -/
def PeerService.new (env : BindEnv) (config : PeerServiceConfig)
    (keyEntropy : Nat) : Option (ArcMutex PeerService) :=
  let local_key := generate_ed25519 keyEntropy
  let local_peer_id := peerIdFrom local_key
  let swarm : ServerSwarm :=
    { local_peer := local_peer_id, listeners := [], applied := [],
      swarmEvents := 0, out_queue := [] }
  let listen_addr := Multiaddr.push (Multiaddr.ofIp config.listen_ip)
    (MSeg.tcp config.listen_port)
  match listen_on swarm listen_addr env with
  | Except.ok sw2 => some { cellId := 0, value := { swarm := sw2 } }
  | Except.error _ => none

/-- The channel endpoints start_peer_service hands back, as opaque ids. -/
structure PeerServiceDescriptor where
  exit_sender : Nat
  peer_channel_out : Nat
  peer_channel_in : Nat

/-- The handles captured by the spawned composite future of
start_peer_service: one by the executor closure, one by the shutdown
continuation that locks the swarm to notify the network on exit. -/
structure SpawnedTask where
  executorHandle : ArcMutex PeerService
  shutdownHandle : ArcMutex PeerService

/-- Embedding of start_peer_service (peer_service.rs lines 67 to 93): the
service handle is cloned for peer_service_executor (line 76) and the moved
original is captured by the shutdown continuation (line 83); the channel
pair and exit sender are created and returned in the descriptor. -/
def start_peer_service (node_service : ArcMutex PeerService) :
    SpawnedTask × PeerServiceDescriptor :=
  ({ executorHandle := ArcMutex.clone node_service,
     shutdownHandle := node_service },
   { exit_sender := 0, peer_channel_out := 2, peer_channel_in := 1 })

/-- Follows the words of claim C8, not the source: the executor and the
shutdown continuation hold handles to distinct cells, that is, the swarm is
not reachable through aliased shared-mutex handles. -/
def claimedExclusiveOwnership (t : SpawnedTask) : Bool :=
  decide (t.executorHandle.cellId ≠ t.shutdownHandle.cellId)

/-- A concrete orchestrator configuration used by concrete evaluations. -/
def cfg0 : OrchCfg :=
  { bootstrap := [MSeg.ip4 9], ipfs := [MSeg.ip4 1], client_peer := 3,
    kp := { pk := 3 } }

/-- A bind environment in which every bind succeeds. -/
def envTrue : BindEnv := { bindOk := fun _ => true }

/-- A bind environment in which every bind fails. -/
def envFalse : BindEnv := { bindOk := fun _ => false }

/-- A concrete peer service configuration. -/
def cfgServer0 : PeerServiceConfig :=
  { listen_ip := 0, listen_port := 7, socket_timeout := 0 }

lemma run_basic (cfg : OrchCfg) : ∀ (trace : List LoopEvent) (b : Option Nat)
    (t u : Nat),
    (runFrom cfg { bootstrap_id := b, ticksLeft := t, uuidSeed := u } trace).fires ≤ t
    ∧ regCount (runFrom cfg { bootstrap_id := b, ticksLeft := t, uuidSeed := u } trace)
        ≤ (runFrom cfg { bootstrap_id := b, ticksLeft := t, uuidSeed := u } trace).fires
    ∧ (runFrom cfg { bootstrap_id := b, ticksLeft := t, uuidSeed := u } trace).stopCalls
        ≤ 1 := by
  intro trace
  induction trace with
  | nil => intro b t u; simp [runFrom, regCount]
  | cons e rest ih =>
      intro b t u
      cases e with
      | stopSignal => simp [runFrom, step, regCount]
      | timerTick =>
          cases t with
          | zero =>
              obtain ⟨ih1, ih2, ih3⟩ := ih b 0 u
              simp only [regCount] at ih2 ⊢
              simp [runFrom, step]
              omega
          | succ n =>
              cases b with
              | none =>
                  obtain ⟨ih1, ih2, ih3⟩ := ih none n u
                  simp only [regCount] at ih2 ⊢
                  simp [runFrom, step]
                  omega
              | some bid =>
                  obtain ⟨ih1, ih2, ih3⟩ := ih (some bid) n (u + 1)
                  simp only [regCount] at ih2 ⊢
                  simp [runFrom, step, List.countP_cons]
                  omega
      | incoming iev =>
          cases iev with
          | none => simp [runFrom, step, regCount]
          | some cev =>
              cases cev with
              | NewConnection pid maddr =>
                  by_cases hm : maddr = cfg.bootstrap
                  · obtain ⟨ih1, ih2, ih3⟩ := ih (some pid) t u
                    simp only [regCount] at ih2 ⊢
                    simp [runFrom, step, hm]
                    omega
                  · obtain ⟨ih1, ih2, ih3⟩ := ih b t u
                    simp only [regCount] at ih2 ⊢
                    simp [runFrom, step, hm]
                    omega
              | FunctionCallEv call sender =>
                  rcases call with ⟨cu, ct, cr, ca, cn⟩
                  cases ct with
                  | none =>
                      obtain ⟨ih1, ih2, ih3⟩ := ih b t u
                      simp only [regCount] at ih2 ⊢
                      cases cr <;> simp [runFrom, step] <;> omega
                  | some tgt =>
                      cases cr with
                      | none =>
                          obtain ⟨ih1, ih2, ih3⟩ := ih b t u
                          simp only [regCount] at ih2 ⊢
                          simp [runFrom, step]
                          omega
                      | some rpl =>
                          by_cases hmem : IPFS_SERVICE ∈ tgt
                          · cases b with
                            | none => simp [runFrom, step, hmem, regCount]
                            | some bid =>
                                obtain ⟨ih1, ih2, ih3⟩ := ih (some bid) t (u + 1)
                                simp only [regCount] at ih2 ⊢
                                simp [runFrom, step, hmem, List.countP_cons]
                                omega
                          · obtain ⟨ih1, ih2, ih3⟩ := ih b t u
                            simp only [regCount] at ih2 ⊢
                            simp [runFrom, step, hmem]
                            omega

lemma run_sent_nil (cfg : OrchCfg) : ∀ (trace : List LoopEvent) (s : OrchState),
    s.bootstrap_id = none → noConn cfg trace = true →
    (runFrom cfg s trace).sent = [] := by
  intro trace
  induction trace with
  | nil => intro s _ _; simp [runFrom]
  | cons e rest ih =>
      intro s h1 h2
      rcases s with ⟨b, t, u⟩
      have hb : b = none := h1
      subst hb
      simp only [noConn, List.all_cons, Bool.and_eq_true] at h2
      obtain ⟨h2a, h2b⟩ := h2
      cases e with
      | stopSignal => simp [runFrom, step]
      | timerTick =>
          cases t with
          | zero =>
              simp [runFrom, step]
              exact ih ⟨none, 0, u⟩ rfl h2b
          | succ n =>
              simp [runFrom, step]
              exact ih ⟨none, n, u⟩ rfl h2b
      | incoming iev =>
          cases iev with
          | none => simp [runFrom, step]
          | some cev =>
              cases cev with
              | NewConnection pid maddr =>
                  simp [isMatchingConn] at h2a
                  simp [runFrom, step, h2a]
                  exact ih ⟨none, t, u⟩ rfl h2b
              | FunctionCallEv call sender =>
                  rcases call with ⟨cu, ct, cr, ca, cn⟩
                  cases ct with
                  | none =>
                      cases cr <;> simp [runFrom, step] <;>
                        exact ih ⟨none, t, u⟩ rfl h2b
                  | some tgt =>
                      cases cr with
                      | none =>
                          simp [runFrom, step]
                          exact ih ⟨none, t, u⟩ rfl h2b
                      | some rpl =>
                          by_cases hmem : IPFS_SERVICE ∈ tgt
                          · simp [runFrom, step, hmem]
                          · simp [runFrom, step, hmem]
                            exact ih ⟨none, t, u⟩ rfl h2b

lemma drainLoop_eq : ∀ (q : List InPeerNotification) (sw : ServerSwarm),
    drainLoop sw q = { sw with applied := sw.applied ++ q.map notifToOp } := by
  intro q
  induction q with
  | nil => intro sw; simp [drainLoop]
  | cons n rest ih =>
      intro sw
      cases n with
      | Relay s d data =>
          simp [drainLoop, applyNotification, relay_message, notifToOp, ih]
      | NetworkState d st =>
          simp [drainLoop, applyNotification, send_network_state, notifToOp, ih]

/-- Claim C1 (amended): register_call returns an envelope whose target is
the single-segment path Service "provide", whose arguments carry exactly
the given service id under the key service_id, whose name is present, and
whose reply_to is the path Peer relay, Peer client followed by a terminal
Signature over the byte-serialization of those two segments made with the
given keypair; when the given client peer id is the identity of the given
keypair (as at every call site), that reply_to passes verify. -/
theorem c1_register_call_fields (client relay : Nat) (service_id : String)
    (kp : Keypair) (e : Nat) (h : client = kp.pk) :
    (register_call client relay service_id kp e).target
        = some [Protocol.Service "provide"]
    ∧ (register_call client relay service_id kp e).arguments
        = Json.obj [("service_id", Json.str service_id)]
    ∧ (register_call client relay service_id kp e).name.isSome = true
    ∧ (register_call client relay service_id kp e).reply_to
        = some (Address.append (relay_path relay client)
            (Protocol.Signature (sign kp (Address.path (relay_path relay client)))))
    ∧ ((register_call client relay service_id kp e).reply_to.map verify)
        = some true := by
  refine ⟨rfl, rfl, rfl, rfl, ?_⟩
  subst h
  exact congrArg some (decide_eq_true ⟨rfl, rfl⟩)

/-- Claim C1 witness: at a concrete client, relay, service id and a keypair
whose identity is the client, the built reply_to passes verify. -/
theorem c1_witness :
    (3 : Nat) = (Keypair.mk 3).pk
    ∧ ((register_call 3 4 "IPFS.multiaddr" (Keypair.mk 3) 0).reply_to.map verify)
        = some true :=
  ⟨rfl, (c1_register_call_fields 3 4 "IPFS.multiaddr" (Keypair.mk 3) 0 rfl).2.2.2.2⟩

/-- Claim C1 counterexample: with a keypair whose identity is not the given
client peer id, the reply_to built by register_call fails verify, so the
claim does not hold for every keypair. -/
theorem c1_counterexample :
    ((register_call 0 1 "IPFS.multiaddr" (Keypair.mk 2) 0).reply_to.map verify)
      = some false := by rfl

/-- Claim C2: on an inbound function call addressed to the advertised
service, with target and reply_to present, while no relay has connected,
the loop body evaluates the unwrap of the empty bootstrap_id before its own
none-guard and panics, instead of logging and skipping. -/
theorem c2_unwrap_panics_without_relay :
    step cfg0 { bootstrap_id := none, ticksLeft := 10, uuidSeed := 0 }
      (LoopEvent.incoming (some (ClientEvent.FunctionCallEv
        { uuid := "u", target := some [IPFS_SERVICE], reply_to := some [],
          arguments := Json.null, name := none } 7)))
    = StepResult.panicked := by rfl

/-- Claim C3 (amended): when the inbound bridge endpoint is closed the
executor merely stops draining for that tick and keeps running (the poll
closure still returns NotReady); when the outbound consumer is gone and an
outbound event is pending, the unwrap on try_send panics. -/
theorem c3_closed_channels_behavior :
    (∀ (sw : ServerSwarm) (o : Bool), sw.out_queue = [] →
      peer_service_tick sw { queue := [], closed := true } o
        = TickOutcome.notReadyT { sw with swarmEvents := 0 } [])
    ∧ (∀ (sw : ServerSwarm) (q : List InPeerNotification) (c : Bool),
        sw.out_queue ≠ [] →
        (peer_service_tick sw { queue := q, closed := c } false).isPanickedT
          = true) := by
  constructor
  · intro sw o h
    simp [peer_service_tick, drainLoop, swarmPollLoop, pop_out_node_event, h]
  · intro sw q c h
    rcases hq : sw.out_queue with _ | ⟨e, rest⟩
    · exact absurd hq h
    · simp [peer_service_tick, drainLoop_eq, swarmPollLoop, pop_out_node_event,
        hq, TickOutcome.isPanickedT]

/-- Claim C3 witness: concrete ticks exhibiting both amended behaviors. -/
theorem c3_witness :
    peer_service_tick
        { local_peer := 0, listeners := [], applied := [], swarmEvents := 0,
          out_queue := [] } { queue := [], closed := true } true
      = TickOutcome.notReadyT
          { local_peer := 0, listeners := [], applied := [], swarmEvents := 0,
            out_queue := [] } []
    ∧ (peer_service_tick
        { local_peer := 0, listeners := [], applied := [], swarmEvents := 0,
          out_queue := [5] } { queue := [], closed := true } false).isPanickedT
      = true :=
  ⟨c3_closed_channels_behavior.1
      { local_peer := 0, listeners := [], applied := [], swarmEvents := 0,
        out_queue := [] } true rfl,
   c3_closed_channels_behavior.2
      { local_peer := 0, listeners := [], applied := [], swarmEvents := 0,
        out_queue := [5] } [] true (by decide)⟩

/-- Claim C3 counterexample: on a closed inbound channel the loop does not
terminate (the tick returns NotReady and the loop keeps running), and on a
closed outbound channel with a pending event the executor panics; both
contradict a clean termination without panic. -/
theorem c3_counterexample :
    (peer_service_tick
        { local_peer := 1, listeners := [], applied := [], swarmEvents := 0,
          out_queue := [] } { queue := [], closed := true } true).isNotReadyT
      = true
    ∧ (peer_service_tick
        { local_peer := 1, listeners := [], applied := [], swarmEvents := 0,
          out_queue := [9] } { queue := [], closed := true } false).isPanickedT
      = true :=
  ⟨rfl, rfl⟩

/-- Claim C6: on every tick the executor first applies all currently-ready
inbound notifications in receipt order (Relay through relay_message,
NetworkState through send_network_state), then drives the swarm until no
internal event is pending, then pops and forwards at most one outbound
event, in FIFO order; the tick is a total function that never blocks. -/
theorem c6_tick_phases (sw : ServerSwarm) (q : List InPeerNotification)
    (c o : Bool) :
    (peer_service_tick sw { queue := q, closed := c } o).appliedOf
        = sw.applied ++ q.map notifToOp
    ∧ (peer_service_tick sw { queue := q, closed := c } o).swarmEventsOf = 0
    ∧ (peer_service_tick sw { queue := q, closed := c } o).forwardedOf
        = (if o then sw.out_queue.take 1 else [])
    ∧ (peer_service_tick sw { queue := q, closed := c } o).forwardedOf.length ≤ 1
    ∧ (peer_service_tick sw { queue := q, closed := c } o).outQueueOf
        = sw.out_queue.drop 1 := by
  have hd := drainLoop_eq q sw
  rcases hq : sw.out_queue with _ | ⟨e, rest⟩ <;> cases o <;>
    simp [peer_service_tick, hd, swarmPollLoop, pop_out_node_event, hq,
      TickOutcome.appliedOf, TickOutcome.swarmEventsOf, TickOutcome.forwardedOf,
      TickOutcome.outQueueOf]

/-- Claim C7 (amended): both envelope builders are deterministic functions
of their arguments and the ambient uuid draw; two invocations with equal
arguments agree on target, reply_to, arguments and name, and the uuid is
exactly the rendering of the fresh random draw made by that invocation. -/
theorem c7_builders_deterministic_except_uuid :
    (∀ (c r : Nat) (sid : String) (kp : Keypair) (e1 e2 : Nat),
      (register_call c r sid kp e1).target = (register_call c r sid kp e2).target
      ∧ (register_call c r sid kp e1).reply_to
          = (register_call c r sid kp e2).reply_to
      ∧ (register_call c r sid kp e1).arguments
          = (register_call c r sid kp e2).arguments
      ∧ (register_call c r sid kp e1).name = (register_call c r sid kp e2).name
      ∧ (register_call c r sid kp e1).uuid = message_id e1)
    ∧ (∀ (b cl : Nat) (rt : Address) (mi : Option String) (ma : Multiaddr)
        (kp : Keypair) (e1 e2 : Nat),
      (multiaddr_call b cl rt mi ma kp e1).target
          = (multiaddr_call b cl rt mi ma kp e2).target
      ∧ (multiaddr_call b cl rt mi ma kp e1).reply_to
          = (multiaddr_call b cl rt mi ma kp e2).reply_to
      ∧ (multiaddr_call b cl rt mi ma kp e1).arguments
          = (multiaddr_call b cl rt mi ma kp e2).arguments
      ∧ (multiaddr_call b cl rt mi ma kp e1).name
          = (multiaddr_call b cl rt mi ma kp e2).name
      ∧ (multiaddr_call b cl rt mi ma kp e1).uuid = message_id e1) :=
  ⟨fun _ _ _ _ _ _ => ⟨rfl, rfl, rfl, rfl, rfl⟩,
   fun _ _ _ _ _ _ _ _ => ⟨rfl, rfl, rfl, rfl, rfl⟩⟩

/-- Claim C7 counterexample: two invocations of register_call with equal
arguments but distinct ambient random draws return envelopes that differ in
the uuid field, so the envelopes are not equal in every field. -/
theorem c7_counterexample :
    (register_call 1 2 "IPFS.multiaddr" (Keypair.mk 1) 0).uuid
      ≠ (register_call 1 2 "IPFS.multiaddr" (Keypair.mk 1) 1).uuid := by
  decide

/-- Claim C8 (amended): the live peer service is created inside an Arc
Mutex wrapper; start_peer_service clones that handle for the executor and
moves the original into the shutdown continuation, so the executor and the
shutdown continuation hold aliased handles to the same mutex cell. -/
theorem c8_shared_mutex_aliasing (ns : ArcMutex PeerService) :
    (start_peer_service ns).1.executorHandle.cellId = ns.cellId
    ∧ (start_peer_service ns).1.shutdownHandle.cellId = ns.cellId
    ∧ ArcMutex.clone ns = ns :=
  ⟨rfl, rfl, rfl⟩

/-- Claim C8 counterexample: for a concretely constructed peer service, the
executor handle and the shutdown handle returned by start_peer_service
alias the same mutex cell, so the claimed exclusive, never-shared ownership
is false. -/
theorem c8_counterexample :
    ((PeerService.new envTrue cfgServer0 0).map
      (fun h => claimedExclusiveOwnership (start_peer_service h).1))
    = some false := by rfl

/-- Claim C10: PeerService.new pushes Tcp listen_port onto the listen ip
multiaddr and unwraps listen_on, so it panics exactly when binding that
address fails; it never returns an error value, and on success the
returned service is already listening on that address. -/
theorem c10_new_panics_or_listens (env : BindEnv)
    (config : PeerServiceConfig) (k : Nat) :
    (env.bindOk (Multiaddr.push (Multiaddr.ofIp config.listen_ip)
        (MSeg.tcp config.listen_port)) = false →
      PeerService.new env config k = none)
    ∧ (env.bindOk (Multiaddr.push (Multiaddr.ofIp config.listen_ip)
        (MSeg.tcp config.listen_port)) = true →
      ∃ h, PeerService.new env config k = some h
        ∧ Multiaddr.push (Multiaddr.ofIp config.listen_ip)
            (MSeg.tcp config.listen_port) ∈ h.value.swarm.listeners) := by
  constructor
  · intro hb
    simp [PeerService.new, listen_on, hb]
  · intro hb
    refine ⟨{ cellId := 0, value := { swarm :=
      { local_peer := peerIdFrom (generate_ed25519 k),
        listeners := [Multiaddr.push (Multiaddr.ofIp config.listen_ip)
          (MSeg.tcp config.listen_port)],
        applied := [], swarmEvents := 0, out_queue := [] } } }, ?_, ?_⟩
    · simp [PeerService.new, listen_on, hb]
    · simp

/-- Claim C4 (amended): once the stop signal fires, the loop exits on that
very tick, having called client.stop exactly once, and awaits the client
task; once the event stream closes, the loop also exits on that very tick
and awaits the client task, but issues no transport-stop call; over any
trace, client.stop is called at most once. -/
theorem c4_stop_paths (cfg : OrchCfg) :
    (∀ (s : OrchState) (rest : List LoopEvent),
      runFrom cfg s (LoopEvent.stopSignal :: rest)
        = { sent := [], stopCalls := 1, fires := 0,
            outcome := OutKind.stoppedAwaited })
    ∧ (∀ (s : OrchState) (rest : List LoopEvent),
      runFrom cfg s (LoopEvent.incoming none :: rest)
        = { sent := [], stopCalls := 0, fires := 0,
            outcome := OutKind.stoppedAwaited })
    ∧ (∀ (trace : List LoopEvent) (s : OrchState),
      (runFrom cfg s trace).stopCalls ≤ 1) :=
  ⟨fun _ _ => rfl, fun _ _ => rfl,
   fun trace s => (run_basic cfg trace s.bootstrap_id s.ticksLeft s.uuidSeed).2.2⟩

/-- Claim C4 counterexample: when the event stream closes, the loop exits
and awaits the client task with zero transport-stop calls, so on that exit
path the number of stop calls is zero rather than exactly one. -/
theorem c4_counterexample :
    (runFrom cfg0 initOrch [LoopEvent.incoming none]).outcome
        = OutKind.stoppedAwaited
    ∧ (runFrom cfg0 initOrch [LoopEvent.incoming none]).stopCalls = 0 :=
  ⟨rfl, rfl⟩

/-- Claim C5: over any trace the bounded interval fires at most 10 times
and at most 10 registration calls are handed to the transport; when no
connection event matching the bootstrap multiaddr ever arrives, no
registration call is sent, and a timer firing with no recorded relay is
skipped without error (the step continues and sends nothing). -/
theorem c5_bounded_registration (cfg : OrchCfg) (trace : List LoopEvent) :
    regCount (runFrom cfg initOrch trace) ≤ 10
    ∧ (runFrom cfg initOrch trace).fires ≤ 10
    ∧ (noConn cfg trace = true → regCount (runFrom cfg initOrch trace) = 0)
    ∧ (∀ (n u : Nat),
        (step cfg { bootstrap_id := none, ticksLeft := n, uuidSeed := u }
          LoopEvent.timerTick).isCont = true
        ∧ (step cfg { bootstrap_id := none, ticksLeft := n, uuidSeed := u }
          LoopEvent.timerTick).sentOf = []) := by
  obtain ⟨h1, h2, h3⟩ := run_basic cfg trace none 10 0
  refine ⟨le_trans h2 h1, h1, ?_, ?_⟩
  · intro hnc
    have hs := run_sent_nil cfg trace initOrch rfl hnc
    simp [regCount, hs]
  · intro n u
    cases n <;> exact ⟨rfl, rfl⟩

/-- Claim C5 witness: a concrete relay-free trace of two timer firings
produces zero registration calls. -/
theorem c5_witness :
    noConn cfg0 [LoopEvent.timerTick, LoopEvent.timerTick] = true
    ∧ regCount (runFrom cfg0 initOrch [LoopEvent.timerTick, LoopEvent.timerTick])
        = 0 :=
  ⟨rfl, (c5_bounded_registration cfg0 [LoopEvent.timerTick, LoopEvent.timerTick]).2.2.1 rfl⟩

/-- Claim C9: a client event that neither matches the inbound-call guard
(function call with target and reply_to present whose target contains the
advertised service) nor the bootstrap-connection guard is ignored: the loop
state, including the recorded relay id, is unchanged and no command is
handed to the transport. -/
theorem c9_unmatched_events_ignored (cfg : OrchCfg) (s : OrchState)
    (ev : ClientEvent) (h1 : isMatchingCall ev = false)
    (h2 : isMatchingConn cfg ev = false) :
    step cfg s (LoopEvent.incoming (some ev)) = StepResult.cont s [] false := by
  cases ev with
  | FunctionCallEv call sender =>
      rcases call with ⟨cu, ct, cr, ca, cn⟩
      cases ct with
      | none => cases cr <;> rfl
      | some tgt =>
          cases cr with
          | none => rfl
          | some rpl =>
              simp only [isMatchingCall, Option.isSome_some, Bool.and_true,
                decide_eq_false_iff_not] at h1
              simp [step, h1]
  | NewConnection pid maddr =>
      simp only [isMatchingConn, decide_eq_false_iff_not] at h2
      simp [step, h2]

/-- Claim C9 witness: a connection event whose multiaddr is not the
configured bootstrap address is ignored by the loop. -/
theorem c9_witness :
    isMatchingCall (ClientEvent.NewConnection 5 [MSeg.ip4 7]) = false
    ∧ isMatchingConn cfg0 (ClientEvent.NewConnection 5 [MSeg.ip4 7]) = false
    ∧ step cfg0 initOrch
        (LoopEvent.incoming (some (ClientEvent.NewConnection 5 [MSeg.ip4 7])))
      = StepResult.cont initOrch [] false :=
  ⟨rfl, rfl,
   c9_unmatched_events_ignored cfg0 initOrch
     (ClientEvent.NewConnection 5 [MSeg.ip4 7]) rfl rfl⟩

/-- Claim C10 witness: a failing bind makes construction panic, and a
successful bind returns a service listening on the configured address. -/
theorem c10_witness :
    envFalse.bindOk (Multiaddr.push (Multiaddr.ofIp cfgServer0.listen_ip)
        (MSeg.tcp cfgServer0.listen_port)) = false
    ∧ PeerService.new envFalse cfgServer0 0 = none
    ∧ envTrue.bindOk (Multiaddr.push (Multiaddr.ofIp cfgServer0.listen_ip)
        (MSeg.tcp cfgServer0.listen_port)) = true
    ∧ ∃ h, PeerService.new envTrue cfgServer0 0 = some h
        ∧ Multiaddr.push (Multiaddr.ofIp cfgServer0.listen_ip)
            (MSeg.tcp cfgServer0.listen_port) ∈ h.value.swarm.listeners :=
  ⟨rfl, (c10_new_panics_or_listens envFalse cfgServer0 0).1 rfl, rfl,
   (c10_new_panics_or_listens envTrue cfgServer0 0).2 rfl⟩

end Nox
